import Mathlib

/-!
# CoverMate: the cover-letter handler of `main.go`

A shallow embedding of `handleGenerateCoverLetter`, `fill_template`,
`getFormattedDate` and `choose_3_pars_w_vectorstore`, together with the pieces
of the Go standard library they call (`strings.Index`, `strings.Contains`,
`strings.Count`, `strings.Replace`, `strings.Join`).

Conventions.
* A Go `string` is the list of its characters.  Every string the program
  handles is decoded from JSON and therefore valid UTF-8, and every operation
  below only compares characters for equality.
* A Go `error` is its message; `nil` is `none`.
* The external services (Chroma store, OpenAI model, clock, environment
  variables, UUID source) are the fields of `Env`: arbitrary functions, so a
  theorem quantified over `Env` holds for every behaviour of the services.
* Every call to an external service and every `c.JSON` response is recorded,
  in program order, in a list of `Event`s.  Writes to the process log
  (`log.Println`, `fmt.Printf`) are not recorded.
* `log.Fatal`/`log.Fatalf` end the process and a failed index check panics:
  both are outcomes of a run, next to a normal return.
-/

namespace CoverMate

/-- A Go string, as the list of its characters. -/
abbrev GoString := List Char

/-! ## Standard library: package `strings` -/

/-- Go `strings.Index(s, substr)`: the position of the first instance of
`substr` in `s`; `none` stands for Go's `-1`. -/
def Index : GoString → GoString → Option Nat
  | [], substr => if substr.isEmpty then some 0 else none
  | c :: cs, substr =>
    if substr.isPrefixOf (c :: cs) then some 0
    else (Index cs substr).map (· + 1)

/-- Go `strings.Contains(s, substr)`, which is `Index(s, substr) >= 0`. -/
def Contains (s substr : GoString) : Bool :=
  (Index s substr).isSome

/-- The loop of Go `strings.Count` for a non-empty `substr`:
`for { i := Index(s, substr); if i == -1 { return n }; n++; s = s[i+len(substr):] }`.
The first argument bounds the number of iterations. -/
def countLoop : Nat → GoString → GoString → Nat → Nat
  | 0, _, _, n => n
  | fuel + 1, s, substr, n =>
    match Index s substr with
    | none => n
    | some i => countLoop fuel (s.drop (i + substr.length)) substr (n + 1)

/-- Go `strings.Count(s, substr)`: the number of non-overlapping instances of
`substr` in `s`, and one more than the number of characters of `s` when
`substr` is empty.  Every iteration of the loop that finds an instance removes
at least one character of `s`, so `s.length + 1` iterations are enough. -/
def Count (s substr : GoString) : Nat :=
  if substr.length = 0 then s.length + 1
  else countLoop (s.length + 1) s substr 0

/-- The replacement loop of Go `strings.Replace`, `remaining` iterations from
iteration number `i` on, with `start` the position reached in `s` and `b` the
builder.  `none` is the slice-bounds panic of `s[start:j]` when `Index` answers
`-1`. -/
def replaceLoop (s old new : GoString) : Nat → Nat → Nat → GoString → Option GoString
  | 0, _, start, b => some (b ++ s.drop start)
  | remaining + 1, i, start, b =>
    if old.length = 0 then
      let j := if i > 0 then start + min 1 (s.drop start).length else start
      replaceLoop s old new remaining (i + 1) (j + old.length)
        (b ++ (s.take j).drop start ++ new)
    else
      match Index (s.drop start) old with
      | none => none
      | some k =>
        let j := start + k
        replaceLoop s old new remaining (i + 1) (j + old.length)
          (b ++ (s.take j).drop start ++ new)

/-- Go `strings.Replace(s, old, new, n)`: a copy of `s` with the first `n`
non-overlapping instances of `old` replaced by `new`; all of them when
`n < 0`. -/
def Replace (s old new : GoString) (n : Int) : Option GoString :=
  if old = new ∨ n = 0 then some s
  else
    let m := Count s old
    if m = 0 then some s
    else
      let n := if n < 0 ∨ (m : Int) < n then m else n.toNat
      replaceLoop s old new n 0 0 []

/-- Go `strings.Join(elems, sep)`. -/
def Join : List GoString → GoString → GoString
  | [], _ => []
  | [a], _ => a
  | a :: b :: rest, sep => a ++ sep ++ Join (b :: rest) sep

/-! ## Data model -/

/-- The request payload, `CoverLetterRequest`.  `BodyParagraphs` is a slice:
`none` is the `nil` slice. -/
structure CoverLetterRequest where
  Template : GoString
  BodyParagraphs : Option (List GoString)
  JobDescription : GoString
  deriving DecidableEq, Repr

/-- Go `len` of a slice: `0` for `nil`. -/
def sliceLen {α : Type} : Option (List α) → Nat
  | none => 0
  | some xs => xs.length

/-- The elements a `for ... range` over a slice visits: none for `nil`. -/
def sliceElems {α : Type} : Option (List α) → List α
  | none => []
  | some xs => xs

/-- A `schema.Document`: the text and its metadata (string keys and values). -/
structure Document where
  PageContent : GoString
  Metadata : List (GoString × GoString)
  deriving DecidableEq, Repr

/-- A `vectorstores.Option` as the program builds them.  A score threshold is
given in tenths (`0.8` is `8`); a filter is the conjunction (`$and`) of
`field >= value` (`$gte`) conditions. -/
inductive VSOption where
  | WithScoreThreshold (tenths : Nat)
  | WithFilters (gte : List (GoString × Nat))
  deriving DecidableEq, Repr

/-- The local type `exampleCase` of `choose_3_pars_w_vectorstore`. -/
structure exampleCase where
  name : GoString
  query : GoString
  numDocuments : Nat
  options : List VSOption
  deriving DecidableEq, Repr

/-- The external collaborators of one request. -/
structure Env where
  /-- The function `os.Getenv`. -/
  Getenv : GoString → GoString
  /-- The value of `uuid.New().String()`. -/
  uuidNew : GoString
  /-- The constructor `chroma.New` with the cosine distance function, given
  URL, API key and namespace. -/
  chromaNew : GoString → GoString → GoString → Except GoString Unit
  /-- The method `store.AddDocuments`. -/
  AddDocuments : List Document → Except GoString Unit
  /-- The method `store.SimilaritySearch`, given the documents indexed so far,
  the query, the number of documents asked for and the options. -/
  SimilaritySearch :
    List Document → GoString → Nat → List VSOption → Except GoString (List Document)
  /-- The constructor `openai.New` for a model name. -/
  openaiNew : GoString → Except GoString Unit
  /-- The method `llm.Call` for a prompt and a temperature in tenths. -/
  Call : GoString → Nat → Except GoString GoString
  /-- The value of `time.Now().Format(layout)`. -/
  nowFormat : GoString → GoString

/-- What a run does to the outside, in program order. -/
inductive Event where
  | chromaNew (url apiKey ns : GoString)
  | AddDocuments (documents : List Document)
  | SimilaritySearch (query : GoString) (numDocuments : Nat) (options : List VSOption)
  | openaiNew (modelName : GoString)
  | Call (prompt : GoString) (temperature : Nat)
  | JSON (code : Nat) (obj : List (GoString × GoString))
  deriving DecidableEq, Repr

/-- How a run ends: a normal return, `log.Fatal` (the process exits), or a
runtime panic. -/
inductive Outcome (α : Type) where
  | returned (v : α)
  | fatal (msg : GoString)
  | panicked (msg : GoString)
  deriving DecidableEq, Repr

/-! ## The program -/

/-- The reserved placeholder of a template. -/
def experiencesToken : GoString := "{experiences}".toList

/-- Go `getFormattedDate`. -/
def getFormattedDate (env : Env) : GoString :=
  let format := "January 2, 2006".toList
  let formattedDate := env.nowFormat format
  formattedDate

/-- The constant `systemPrompt` of `fill_template`. -/
def systemPrompt : GoString :=
  "Use the job description to fill out all missing fields like these: <MISSING_FIELD>. If there is a field with curly brackets like this {example}, leave it unmodified in your output. Your output should not include the job description.".toList

/-- The prompt `fill_template` builds with `fmt.Sprintf`. -/
def combinedPrompt (date jobDescription template : GoString) : GoString :=
  systemPrompt ++ "\n\nToday\x27s date:".toList ++ date ++ "\n\nJob Description:\n".toList
    ++ jobDescription ++ "\n\nTemplate:\n".toList ++ template

/-- Go `fill_template`: the events of the run and the returned pair
`(string, error)`. -/
def fill_template (env : Env) (template jobDescription : GoString) :
    List Event × (GoString × Option GoString) :=
  let modelName := "gpt-4o-mini".toList
  match env.openaiNew modelName with
  | .error err => ([.openaiNew modelName], ([], some ("failed to load model: ".toList ++ err)))
  | .ok _ =>
    let date := getFormattedDate env
    let prompt := combinedPrompt date jobDescription template
    match env.Call prompt 8 with
    | .error err =>
      ([.openaiNew modelName, .Call prompt 8],
        ([], some ("failed to generate completion: ".toList ++ err)))
    | .ok completion =>
      ([.openaiNew modelName, .Call prompt 8], (completion, none))

/-- The slice literal `exampleCases` of `choose_3_pars_w_vectorstore`. -/
def exampleCases (jobDescription : GoString) : List exampleCase :=
  [ { name := "Software Dev".toList
      query := "Which of these paragraphs is most related to the job description?\n\nJob Description: ".toList
        ++ jobDescription
      numDocuments := 3
      options := [.WithScoreThreshold 8] },
    { name := "Data Engineering".toList
      query := "Which of these paragraphs is most related to Data Engineering?".toList
      numDocuments := 3
      options := [.WithScoreThreshold 8] },
    { name := "NLP".toList
      query := "Which of these paragraphs is most related to NLP (Natual Language Processing)?".toList
      numDocuments := 3
      options := [.WithFilters [("area".toList, 1000), ("population".toList, 13)]] } ]

/-- The constant `caseToRun` of `choose_3_pars_w_vectorstore`. -/
def caseToRun : Nat := 1

/-- The case `exampleCases[caseToRun]`; the index is a constant inside the
three-element literal. -/
def selectedCase (jobDescription : GoString) : exampleCase :=
  (exampleCases jobDescription).getD caseToRun
    { name := [], query := [], numDocuments := 0, options := [] }

/-- The assignment `texts[docI] = v`: `none` is the index-out-of-range panic. -/
def setIndex (texts : List GoString) (docI : Nat) (v : GoString) : Option (List GoString) :=
  if docI < texts.length then some (texts.set docI v) else none

/-- The loop `for docI, doc := range docs { texts[docI] = doc.PageContent }`,
from index `docI` on. -/
def writeTexts : List GoString → Nat → List Document → Option (List GoString)
  | texts, _, [] => some texts
  | texts, docI, doc :: rest =>
    match setIndex texts docI doc.PageContent with
    | none => none
    | some texts1 => writeTexts texts1 (docI + 1) rest

/-- The slice `documents` that `choose_3_pars_w_vectorstore` builds:
`for _, bodyPar := range bodyPars { documents = append(documents, doc) }`. -/
def documentsOf (bodyPars : List GoString) : List Document :=
  bodyPars.map fun bodyPar =>
    { PageContent := bodyPar, Metadata := [("tmpkey".toList, "tmpval".toList)] }

/-- Go `choose_3_pars_w_vectorstore`: the events of the run and how it ends;
a normal return carries the pair `(string, error)`. -/
def choose_3_pars_w_vectorstore (env : Env) (bodyPars : List GoString)
    (jobDescription : GoString) : List Event × Outcome (GoString × Option GoString) :=
  let url := env.Getenv "CHROMA_URL".toList
  let apiKey := env.Getenv "OPENAI_API_KEY".toList
  let ns := env.uuidNew
  match env.chromaNew url apiKey ns with
  | .error errNs =>
    ([.chromaNew url apiKey ns], .fatal ("new: ".toList ++ errNs ++ "\n".toList))
  | .ok _ =>
    let documents := documentsOf bodyPars
    match env.AddDocuments documents with
    | .error err =>
      ([.chromaNew url apiKey ns, .AddDocuments documents],
        .fatal ("Error adding documents to the store: ".toList ++ err))
    | .ok _ =>
      let ec := selectedCase jobDescription
      let events : List Event :=
        [.chromaNew url apiKey ns, .AddDocuments documents,
          .SimilaritySearch ec.query ec.numDocuments ec.options]
      match env.SimilaritySearch documents ec.query ec.numDocuments ec.options with
      | .error err => (events, .fatal ("query: ".toList ++ err ++ "\n".toList))
      | .ok docs =>
        let texts : List GoString := List.replicate 3 []
        match writeTexts texts 0 docs with
        | none => (events, .panicked "index out of range [3] with length 3".toList)
        | some texts1 =>
          let result := Join texts1 "\n\n".toList
          (events, .returned (result, none))

/-- Go `handleGenerateCoverLetter`, given the result of `c.ShouldBindJSON`:
the events of the run (among them every `c.JSON` response, in order) and how
it ends. -/
def handleGenerateCoverLetter (env : Env) (bind : Except GoString CoverLetterRequest) :
    List Event × Outcome Unit :=
  match bind with
  | .error _ =>
    ([.JSON 400 [("error".toList, "Invalid request payload".toList)]], .returned ())
  | .ok req =>
    if req.Template = [] ∨ req.BodyParagraphs = none ∨ req.JobDescription = [] then
      ([.JSON 400 [("error".toList,
          "Invalid request payload. All fields must be provided".toList)]], .returned ())
    else if sliceLen req.BodyParagraphs < 3 then
      ([.JSON 400 [("error".toList,
          "Invalid request payload. There must be at least 3 body paragraphs".toList)]],
        .returned ())
    else if !Contains req.Template experiencesToken then
      ([.JSON 400 [("error".toList,
          "Invalid request payload. template should contain \x27{experiences}\x27".toList)]],
        .returned ())
    else
      match choose_3_pars_w_vectorstore env (sliceElems req.BodyParagraphs) req.JobDescription with
      | (ev1, .fatal msg) => (ev1, .fatal msg)
      | (ev1, .panicked msg) => (ev1, .panicked msg)
      | (ev1, .returned (pars, err1)) =>
        let fail1 : List Event :=
          if err1 ≠ none then
            [.JSON 500 [("error".toList, "Failure choosing 3 body paragraphs".toList)]]
          else []
        match fill_template env req.Template req.JobDescription with
        | (ev2, (coverLetterPartial, err2)) =>
          let fail2 : List Event :=
            if err2 ≠ none then
              [.JSON 500 [("error".toList, "Failure filling out template".toList)]]
            else []
          match Replace coverLetterPartial experiencesToken pars 1 with
          | none =>
            (ev1 ++ fail1 ++ ev2 ++ fail2, .panicked "slice bounds out of range".toList)
          | some coverLetter =>
            (ev1 ++ fail1 ++ ev2 ++ fail2 ++
              [.JSON 200 [("cover_letter".toList, coverLetter)]], .returned ())

/-! ## The conditions of the specification on a request -/

/-- The conditions the specification puts on a parsed request: the template
is non-empty, the body-paragraph list is non-nil and has at least 3 entries,
the job description is non-empty, and the template contains the literal
`{experiences}`. -/
def WellFormed (req : CoverLetterRequest) : Prop :=
  req.Template ≠ [] ∧ (req.BodyParagraphs ≠ none ∧ 3 ≤ sliceLen req.BodyParagraphs) ∧
    req.JobDescription ≠ [] ∧ experiencesToken <:+: req.Template

/-! ## Concrete environments and requests -/

/-- Services that all succeed: the store answers every query with `docs` and
the model answers every prompt with `completion`. -/
def envWith (docs : List Document) (completion : GoString) : Env where
  Getenv := fun _ => []
  uuidNew := "ns".toList
  chromaNew := fun _ _ _ => .ok ()
  AddDocuments := fun _ => .ok ()
  SimilaritySearch := fun _ _ _ _ => .ok docs
  openaiNew := fun _ => .ok ()
  Call := fun _ _ => .ok completion
  nowFormat := fun _ => "May 1, 2025".toList

/-- A document with the given text and the metadata the program attaches. -/
def docOf (text : String) : Document :=
  { PageContent := text.toList, Metadata := [("tmpkey".toList, "tmpval".toList)] }

/-- The store cannot be reached: `chroma.New` fails. -/
def envStoreDown : Env :=
  { envWith [] [] with chromaNew := fun _ _ _ => .error "connection refused".toList }

/-- Indexing fails: `AddDocuments` returns an error. -/
def envAddFails : Env :=
  { envWith [] [] with AddDocuments := fun _ => .error "add failed".toList }

/-- The query fails: `SimilaritySearch` returns an error. -/
def envSearchFails : Env :=
  { envWith [] [] with SimilaritySearch := fun _ _ _ _ => .error "search failed".toList }

/-- The store answers with three documents and the model call fails. -/
def envModelFails : Env :=
  { envWith [docOf "p1", docOf "p2", docOf "p3"] [] with
    Call := fun _ _ => .error "rate limited".toList }

/-- The store answers with three documents and the model answers with
`completion`. -/
def envAnswering (completion : String) : Env :=
  envWith [docOf "p1", docOf "p2", docOf "p3"] completion.toList

/-- Three candidate paragraphs. -/
def pars3 : List GoString := ["p1".toList, "p2".toList, "p3".toList]

/-- A request that passes validation. -/
def req0 : CoverLetterRequest :=
  { Template := "Hi <NAME>, {experiences} Bye".toList
    BodyParagraphs := some pars3
    JobDescription := "Go developer".toList }

/-! ## Lemmas on the `strings` functions -/

theorem isPrefixOf_eq_true_iff (sub s : GoString) :
    sub.isPrefixOf s = true ↔ sub <+: s := by
  simp

/-- `Index` finds a position at which `substr` starts, when no earlier position
is one. -/
theorem Index_eq_some_of_first (sub : GoString) :
    ∀ (s : GoString) (k : Nat), sub <+: s.drop k →
      (∀ j, j < k → ¬ sub <+: s.drop j) → Index s sub = some k := by
  intro s
  induction s with
  | nil =>
    intro k hk hmin
    have hsub : sub = [] := by simpa using hk
    subst hsub
    cases k with
    | zero => simp [Index]
    | succ k => exact absurd (List.nil_prefix) (hmin 0 (Nat.succ_pos k))
  | cons c cs ih =>
    intro k hk hmin
    cases k with
    | zero =>
      have h0 : sub.isPrefixOf (c :: cs) = true :=
        (isPrefixOf_eq_true_iff sub (c :: cs)).2 (by simpa using hk)
      simp [Index, h0]
    | succ k =>
      have h0 : ¬ sub.isPrefixOf (c :: cs) = true := fun h =>
        hmin 0 (Nat.succ_pos k) (by simpa using (isPrefixOf_eq_true_iff sub (c :: cs)).1 h)
      have hrec : Index cs sub = some k :=
        ih k (by simpa using hk) (fun j hj => by simpa using hmin (j + 1) (Nat.succ_lt_succ hj))
      simp [Index, h0, hrec]

/-- A position `Index` answers is one at which `substr` starts. -/
theorem Index_some_isPrefix (sub : GoString) :
    ∀ (s : GoString) (k : Nat), Index s sub = some k → sub <+: s.drop k := by
  intro s
  induction s with
  | nil =>
    intro k h
    by_cases hs : sub.isEmpty = true
    · have : sub = [] := by simpa using hs
      subst this
      exact List.nil_prefix
    · simp [Index, hs] at h
  | cons c cs ih =>
    intro k h
    by_cases h0 : sub.isPrefixOf (c :: cs) = true
    · simp [Index, h0] at h
      subst h
      simpa using (isPrefixOf_eq_true_iff sub (c :: cs)).1 h0
    · simp only [Index, h0] at h
      cases hrec : Index cs sub with
      | none => simp [hrec] at h
      | some j =>
        simp [hrec] at h
        subst h
        simpa using ih j hrec

/-- `Index` answers `none` only when `substr` starts nowhere in `s`. -/
theorem Index_none_not_prefix (sub : GoString) :
    ∀ (s : GoString), Index s sub = none → ∀ k, ¬ sub <+: s.drop k := by
  intro s
  induction s with
  | nil =>
    intro h k hk
    have hsub : sub = [] := by simpa using hk
    subst hsub
    simp [Index] at h
  | cons c cs ih =>
    intro h k hk
    by_cases h0 : sub.isPrefixOf (c :: cs) = true
    · simp [Index, h0] at h
    · simp only [Index, h0] at h
      have hrec : Index cs sub = none := by
        cases hr : Index cs sub with
        | none => rfl
        | some j => simp [hr] at h
      cases k with
      | zero => exact h0 ((isPrefixOf_eq_true_iff sub (c :: cs)).2 (by simpa using hk))
      | succ k => exact ih hrec k (by simpa using hk)

/-- `Contains` is the infix relation on lists. -/
theorem Contains_iff_isInfix (s sub : GoString) : Contains s sub = true ↔ sub <:+: s := by
  unfold Contains
  constructor
  · intro h
    obtain ⟨k, hk⟩ := Option.isSome_iff_exists.1 h
    have hp := Index_some_isPrefix sub s k hk
    exact hp.isInfix.trans (List.drop_suffix k s).isInfix
  · intro h
    cases hi : Index s sub with
    | some k => rfl
    | none =>
      exfalso
      obtain ⟨a, b, hab⟩ := h
      refine Index_none_not_prefix sub s hi a.length ?_
      rw [← hab, List.append_assoc, List.drop_left]
      exact List.prefix_append sub b

theorem countLoop_ge (sub : GoString) :
    ∀ (fuel : Nat) (s : GoString) (n : Nat), n ≤ countLoop fuel s sub n := by
  intro fuel
  induction fuel with
  | zero => intro s n; simp [countLoop]
  | succ fuel ih =>
    intro s n
    unfold countLoop
    cases Index s sub with
    | none => exact Nat.le_refl n
    | some i => exact Nat.le_trans (Nat.le_succ n) (ih _ (n + 1))

/-- The bound on the iterations of the loop of `Count` is never reached: any
two bounds above the length of `s` give the same count. -/
theorem countLoop_fuel (sub : GoString) (hsub : sub ≠ []) :
    ∀ (fuel fuel2 : Nat) (s : GoString) (n : Nat), s.length < fuel → s.length < fuel2 →
      countLoop fuel s sub n = countLoop fuel2 s sub n := by
  have hlen : 0 < sub.length := List.length_pos.2 hsub
  intro fuel
  induction fuel with
  | zero => intro fuel2 s n h; omega
  | succ fuel ih =>
    intro fuel2 s n h h2
    cases fuel2 with
    | zero => omega
    | succ fuel2 =>
      unfold countLoop
      cases hi : Index s sub with
      | none => rfl
      | some i =>
        have hp := (Index_some_isPrefix sub s i hi).length_le
        rw [List.length_drop] at hp
        have hd : (s.drop (i + sub.length)).length < s.length := by
          rw [List.length_drop]
          omega
        exact ih fuel2 _ (n + 1) (by omega) (by omega)

/-- For a non-empty `old`, `Count` is zero exactly when `Index` finds nothing. -/
theorem Count_eq_zero_iff (s old : GoString) (hold : old ≠ []) :
    Count s old = 0 ↔ Index s old = none := by
  have hlen : old.length ≠ 0 := by simpa using hold
  unfold Count
  simp only [hlen, if_false]
  unfold countLoop
  cases hi : Index s old with
  | none => simp
  | some i =>
    have := countLoop_ge old s.length (s.drop (i + old.length)) 1
    simp
    omega

/-- What `strings.Replace(s, old, new, 1)` returns for a non-empty `old`: `s`
itself when `old` does not occur (or equals `new`), and otherwise `s` with the
first instance of `old` cut out and `new` put in its place.  It never panics. -/
theorem Replace_one (s old new : GoString) (hold : old ≠ []) :
    Replace s old new 1 = some
      (match Index s old with
       | none => s
       | some k => s.take k ++ new ++ s.drop (k + old.length)) := by
  have hlen : old.length ≠ 0 := by simpa using hold
  unfold Replace
  by_cases heq : old = new
  · subst heq
    cases hi : Index s old with
    | none => simp
    | some k =>
      have hp := Index_some_isPrefix old s k hi
      obtain ⟨t, ht⟩ := hp
      have : s.take k ++ old ++ s.drop (k + old.length) = s := by
        have h1 : s.drop (k + old.length) = t := by
          rw [← List.drop_drop, ← ht, List.drop_left]
        rw [h1, List.append_assoc, ht, List.take_append_drop]
      simp [this]
  · cases hi : Index s old with
    | none =>
      have hc := (Count_eq_zero_iff s old hold).2 hi
      simp [heq, hc]
    | some k =>
      have hc : Count s old ≠ 0 := fun h => by
        have := (Count_eq_zero_iff s old hold).1 h
        simp [hi] at this
      have hn : (if (1 : Int) < 0 ∨ ((Count s old : Nat) : Int) < 1 then Count s old
          else (1 : Int).toNat) = 1 := by
        have h1 : ¬ ((1 : Int) < 0 ∨ ((Count s old : Nat) : Int) < 1) := by omega
        rw [if_neg h1]
        rfl
      simp only [heq, hc, hn, false_or, if_false, one_ne_zero]
      simp [replaceLoop, hlen, hi]

/-! ## Lemmas on the selector -/

/-- The loop over `docs` writes without a panic exactly when every index it
uses is below the length of `texts`. -/
theorem writeTexts_isSome_iff (docs : List Document) :
    ∀ (texts : List GoString) (i : Nat),
      (writeTexts texts i docs).isSome = true ↔ (docs = [] ∨ i + docs.length ≤ texts.length) := by
  induction docs with
  | nil => intro texts i; simp [writeTexts]
  | cons d rest ih =>
    intro texts i
    unfold writeTexts
    by_cases hi : i < texts.length
    · have hset : setIndex texts i d.PageContent = some (texts.set i d.PageContent) := by
        simp [setIndex, hi]
      rw [hset]
      simp only [ih, List.length_set, List.length_cons]
      constructor
      · rintro (h | h)
        · subst h
          right
          simp
          omega
        · right
          omega
      · rintro (h | h)
        · exact absurd h (List.cons_ne_nil d rest)
        · right
          omega
    · have hset : setIndex texts i d.PageContent = none := by
        simp [setIndex, hi]
      rw [hset]
      simp
      omega

/-- The run of the selector once the store is built, the paragraphs are
indexed and the query is answered with `docs`. -/
theorem choose_of_answer (env : Env) (bodyPars : List GoString) (jobDescription : GoString)
    (docs : List Document)
    (hNew : env.chromaNew (env.Getenv "CHROMA_URL".toList) (env.Getenv "OPENAI_API_KEY".toList)
      env.uuidNew = .ok ())
    (hAdd : env.AddDocuments (documentsOf bodyPars) = .ok ())
    (hSearch : env.SimilaritySearch (documentsOf bodyPars) (selectedCase jobDescription).query
      (selectedCase jobDescription).numDocuments (selectedCase jobDescription).options = .ok docs) :
    (choose_3_pars_w_vectorstore env bodyPars jobDescription).2 =
      match writeTexts (List.replicate 3 []) 0 docs with
      | none => .panicked "index out of range [3] with length 3".toList
      | some texts1 => .returned (Join texts1 "\n\n".toList, none) := by
  unfold choose_3_pars_w_vectorstore
  simp only [hNew, hAdd, hSearch]
  cases writeTexts (List.replicate 3 []) 0 docs <;> rfl

/-- The error the selector returns is always `nil`. -/
theorem choose_error_nil (env : Env) (bodyPars : List GoString) (jobDescription : GoString)
    (result : GoString) (err : Option GoString)
    (h : (choose_3_pars_w_vectorstore env bodyPars jobDescription).2 = .returned (result, err)) :
    err = none := by
  unfold choose_3_pars_w_vectorstore at h
  dsimp only at h
  split at h
  · simp at h
  · split at h
    · simp at h
    · split at h
      · simp at h
      · split at h
        · simp at h
        · simp at h
          exact h.2.symm

/-- The query of the selected case does not depend on the job description. -/
theorem selectedCase_query (jobDescription : GoString) :
    (selectedCase jobDescription).query =
      "Which of these paragraphs is most related to Data Engineering?".toList := rfl

/-! ## Lemmas on the handler -/

theorem WellFormed_checks (req : CoverLetterRequest) (h : WellFormed req) :
    ¬ (req.Template = [] ∨ req.BodyParagraphs = none ∨ req.JobDescription = []) ∧
      ¬ sliceLen req.BodyParagraphs < 3 ∧ Contains req.Template experiencesToken = true := by
  obtain ⟨h1, ⟨h2, h3⟩, h4, h5⟩ := h
  refine ⟨?_, by omega, (Contains_iff_isInfix _ _).2 h5⟩
  rintro (h | h | h)
  · exact h1 h
  · exact h2 h
  · exact h4 h

/-- The run of the handler on a valid request for which the selector and the
completer both return: the events of the two calls, a response with status
500 after each call that returned an error, and then the response with status
200 that carries the assembled letter. -/
theorem handle_assembles (env : Env) (req : CoverLetterRequest) (hreq : WellFormed req)
    (ev1 ev2 : List Event) (pars c : GoString) (err1 err2 : Option GoString)
    (hsel : choose_3_pars_w_vectorstore env (sliceElems req.BodyParagraphs) req.JobDescription
      = (ev1, .returned (pars, err1)))
    (hfill : fill_template env req.Template req.JobDescription = (ev2, (c, err2))) :
    handleGenerateCoverLetter env (.ok req) =
      (ev1 ++ (if err1 ≠ none then
          [Event.JSON 500 [("error".toList, "Failure choosing 3 body paragraphs".toList)]]
          else [])
        ++ ev2 ++ (if err2 ≠ none then
          [Event.JSON 500 [("error".toList, "Failure filling out template".toList)]]
          else [])
        ++ [Event.JSON 200 [("cover_letter".toList,
            match Index c experiencesToken with
            | none => c
            | some k => c.take k ++ pars ++ c.drop (k + experiencesToken.length))]],
        .returned ()) := by
  obtain ⟨h1, h2, h3⟩ := WellFormed_checks req hreq
  have htok : experiencesToken ≠ [] := by decide
  unfold handleGenerateCoverLetter
  simp only [h1, h2, h3, if_false, Bool.not_true, hsel, hfill, Replace_one _ _ _ htok]
  rfl

/-- The run of the handler on a request that passes the four checks: the
part of the handler after the checks. -/
theorem handle_of_wellFormed (env : Env) (req : CoverLetterRequest) (hreq : WellFormed req) :
    handleGenerateCoverLetter env (.ok req) =
      match choose_3_pars_w_vectorstore env (sliceElems req.BodyParagraphs) req.JobDescription with
      | (ev1, .fatal msg) => (ev1, .fatal msg)
      | (ev1, .panicked msg) => (ev1, .panicked msg)
      | (ev1, .returned (pars, err1)) =>
        match fill_template env req.Template req.JobDescription with
        | (ev2, (coverLetterPartial, err2)) =>
          match Replace coverLetterPartial experiencesToken pars 1 with
          | none =>
            (ev1 ++ (if err1 ≠ none then
                [Event.JSON 500 [("error".toList, "Failure choosing 3 body paragraphs".toList)]]
                else [])
              ++ ev2 ++ (if err2 ≠ none then
                [Event.JSON 500 [("error".toList, "Failure filling out template".toList)]]
                else []),
              .panicked "slice bounds out of range".toList)
          | some coverLetter =>
            (ev1 ++ (if err1 ≠ none then
                [Event.JSON 500 [("error".toList, "Failure choosing 3 body paragraphs".toList)]]
                else [])
              ++ ev2 ++ (if err2 ≠ none then
                [Event.JSON 500 [("error".toList, "Failure filling out template".toList)]]
                else [])
              ++ [Event.JSON 200 [("cover_letter".toList, coverLetter)]], .returned ()) := by
  obtain ⟨h1, h2, h3⟩ := WellFormed_checks req hreq
  unfold handleGenerateCoverLetter
  simp only [h1, h2, h3, if_false, Bool.not_true]
  rfl

/-- The first thing the selector does is build the store. -/
theorem choose_first_event (env : Env) (bodyPars : List GoString) (jobDescription : GoString) :
    ∃ rest, (choose_3_pars_w_vectorstore env bodyPars jobDescription).1 =
      Event.chromaNew (env.Getenv "CHROMA_URL".toList) (env.Getenv "OPENAI_API_KEY".toList)
        env.uuidNew :: rest := by
  unfold choose_3_pars_w_vectorstore
  dsimp only
  split
  · exact ⟨_, rfl⟩
  · split
    · exact ⟨_, rfl⟩
    · split
      · exact ⟨_, rfl⟩
      · split <;> exact ⟨_, rfl⟩

/-! ## The claims on the selector -/

/-- C7. When the store is built, the paragraphs are indexed and the query is
answered with exactly three documents `d0`, `d1`, `d2`, the selector returns
their page contents in that order, joined with a blank line, and a nil error. -/
theorem three_documents_joined_in_order (env : Env) (bodyPars : List GoString)
    (jobDescription : GoString) (d0 d1 d2 : Document)
    (hNew : env.chromaNew (env.Getenv "CHROMA_URL".toList) (env.Getenv "OPENAI_API_KEY".toList)
      env.uuidNew = .ok ())
    (hAdd : env.AddDocuments (documentsOf bodyPars) = .ok ())
    (hSearch : env.SimilaritySearch (documentsOf bodyPars) (selectedCase jobDescription).query
      (selectedCase jobDescription).numDocuments (selectedCase jobDescription).options
        = .ok [d0, d1, d2]) :
    (choose_3_pars_w_vectorstore env bodyPars jobDescription).2 =
      .returned (d0.PageContent ++ "\n\n".toList ++ d1.PageContent ++ "\n\n".toList
        ++ d2.PageContent, none) := by
  rw [choose_of_answer env bodyPars jobDescription [d0, d1, d2] hNew hAdd hSearch]
  simp [writeTexts, setIndex, Join]

/-- C7 at a concrete store answer: three documents `p1`, `p2`, `p3`. -/
theorem three_documents_joined_in_order_witness :
    (choose_3_pars_w_vectorstore (envWith [docOf "p1", docOf "p2", docOf "p3"] []) pars3
        "Go developer".toList).2 = .returned ("p1\n\np2\n\np3".toList, none) :=
  three_documents_joined_in_order (envWith [docOf "p1", docOf "p2", docOf "p3"] []) pars3
    "Go developer".toList (docOf "p1") (docOf "p2") (docOf "p3") rfl rfl rfl

/-- C10. When the store is built, the paragraphs are indexed and the query is
answered with `docs`, every write `texts[docI]` into the three-element slice is
in bounds, and the selector returns, exactly when `docs` has at most 3
documents; with more than 3 documents, and only then, the run ends in the
index-out-of-range panic. -/
theorem texts_write_in_bounds_iff (env : Env) (bodyPars : List GoString)
    (jobDescription : GoString) (docs : List Document)
    (hNew : env.chromaNew (env.Getenv "CHROMA_URL".toList) (env.Getenv "OPENAI_API_KEY".toList)
      env.uuidNew = .ok ())
    (hAdd : env.AddDocuments (documentsOf bodyPars) = .ok ())
    (hSearch : env.SimilaritySearch (documentsOf bodyPars) (selectedCase jobDescription).query
      (selectedCase jobDescription).numDocuments (selectedCase jobDescription).options
        = .ok docs) :
    ((writeTexts (List.replicate 3 []) 0 docs).isSome = true ↔ docs.length ≤ 3) ∧
    ((∃ result, (choose_3_pars_w_vectorstore env bodyPars jobDescription).2
        = .returned (result, none)) ↔ docs.length ≤ 3) ∧
    ((choose_3_pars_w_vectorstore env bodyPars jobDescription).2
        = .panicked "index out of range [3] with length 3".toList ↔ 3 < docs.length) := by
  have hw : (writeTexts (List.replicate 3 []) 0 docs).isSome = true ↔ docs.length ≤ 3 := by
    rw [writeTexts_isSome_iff]
    constructor
    · rintro (h | h)
      · subst h
        simp
      · simpa using h
    · intro h
      right
      simpa using h
  refine ⟨hw, ?_, ?_⟩
  · rw [choose_of_answer env bodyPars jobDescription docs hNew hAdd hSearch]
    cases hwt : writeTexts (List.replicate 3 []) 0 docs with
    | none =>
      rw [hwt] at hw
      simp at hw
      constructor
      · rintro ⟨r, hr⟩
        simp at hr
      · intro h
        omega
    | some t =>
      rw [hwt] at hw
      simp at hw
      constructor
      · intro _
        exact hw
      · intro _
        exact ⟨_, rfl⟩
  · rw [choose_of_answer env bodyPars jobDescription docs hNew hAdd hSearch]
    cases hwt : writeTexts (List.replicate 3 []) 0 docs with
    | none =>
      rw [hwt] at hw
      simp at hw
      constructor
      · intro _
        exact hw
      · intro _
        rfl
    | some t =>
      rw [hwt] at hw
      simp at hw
      constructor
      · intro h
        simp at h
      · intro h
        omega

/-- C10 at a concrete store answer of four documents: the fourth write is out
of range and the run panics. -/
theorem texts_write_in_bounds_iff_witness :
    (choose_3_pars_w_vectorstore
        (envWith [docOf "p1", docOf "p2", docOf "p3", docOf "p4"] []) pars3
        "Go developer".toList).2 = .panicked "index out of range [3] with length 3".toList :=
  (texts_write_in_bounds_iff (envWith [docOf "p1", docOf "p2", docOf "p3", docOf "p4"] [])
    pars3 "Go developer".toList [docOf "p1", docOf "p2", docOf "p3", docOf "p4"]
    rfl rfl rfl).2.2.2 (by decide)

/-- C1. The query the selector sends does not carry the job description: for
two different job descriptions the run issues the same `SimilaritySearch`, with
the fixed "Data Engineering" question, in which the job description does not
occur. -/
theorem query_is_fixed_topic :
    (choose_3_pars_w_vectorstore (envWith [] []) pars3 "Go developer".toList).1 =
      [ Event.chromaNew [] [] "ns".toList,
        Event.AddDocuments (documentsOf pars3),
        Event.SimilaritySearch
          "Which of these paragraphs is most related to Data Engineering?".toList 3
          [VSOption.WithScoreThreshold 8] ] ∧
    (choose_3_pars_w_vectorstore (envWith [] []) pars3 "Nurse".toList).1 =
      (choose_3_pars_w_vectorstore (envWith [] []) pars3 "Go developer".toList).1 ∧
    Contains "Which of these paragraphs is most related to Data Engineering?".toList
      "Go developer".toList = false := by
  decide

/-- C4. With fewer than three documents in the answer the selector still joins
three entries: for an empty answer it returns two separators, and for a
one-document answer the text followed by two separators. -/
theorem short_answer_is_padded :
    (choose_3_pars_w_vectorstore (envWith [] []) pars3 "Go developer".toList).2 =
      .returned ("\n\n\n\n".toList, none) ∧
    (choose_3_pars_w_vectorstore (envWith [docOf "p1"] []) pars3 "Go developer".toList).2 =
      .returned ("p1\n\n\n\n".toList, none) := by
  decide

/-- C5. When the store cannot be built, indexing fails or the query fails, the
selector does not return: the run ends in `log.Fatal`. -/
theorem store_failure_is_fatal :
    choose_3_pars_w_vectorstore envStoreDown pars3 "Go developer".toList =
      ([Event.chromaNew [] [] "ns".toList], .fatal "new: connection refused\n".toList) ∧
    (choose_3_pars_w_vectorstore envAddFails pars3 "Go developer".toList).2 =
      .fatal "Error adding documents to the store: add failed".toList ∧
    (choose_3_pars_w_vectorstore envSearchFails pars3 "Go developer".toList).2 =
      .fatal "query: search failed\n".toList := by
  decide

/-! ## The claims on the completer -/

/-- C6, counterexample. The model answers with a text that drops the
placeholder: `fill_template` succeeds and returns that text, in which the
placeholder of the template does not occur. -/
theorem fill_template_may_drop_placeholder :
    (fill_template (envWith [] "Dear team".toList) "Hi {experiences}".toList
        "Go developer".toList).2 = ("Dear team".toList, none) ∧
    Contains "Hi {experiences}".toList experiencesToken = true ∧
    Contains "Dear team".toList experiencesToken = false := by
  decide

/-- C6, amended. When `fill_template` succeeds, the string it returns is the
completion the model gave for the prompt, unchanged; the prompt starts with the
instruction to leave curly-bracket fields unmodified and contains every
substring of the template, so every placeholder, verbatim. -/
theorem fill_template_returns_completion (env : Env) (template jobDescription : GoString)
    (ev : List Event) (result : GoString)
    (h : fill_template env template jobDescription = (ev, (result, none))) :
    env.Call (combinedPrompt (getFormattedDate env) jobDescription template) 8 = .ok result ∧
    systemPrompt <+: combinedPrompt (getFormattedDate env) jobDescription template ∧
    (∀ placeholder : GoString, Contains template placeholder = true →
      Contains (combinedPrompt (getFormattedDate env) jobDescription template) placeholder
        = true) := by
  refine ⟨?_, ?_, ?_⟩
  · unfold fill_template at h
    dsimp only at h
    split at h
    · simp at h
    · split at h
      · simp at h
      · rename_i completion hcall
        simp at h
        rw [hcall, h.2]
  · unfold combinedPrompt
    simp only [List.append_assoc]
    exact List.prefix_append _ _
  · intro placeholder hp
    rw [Contains_iff_isInfix] at hp ⊢
    unfold combinedPrompt
    exact hp.trans (List.suffix_append _ template).isInfix

/-- C6, amended, at a concrete model answer that keeps the placeholder. -/
theorem fill_template_returns_completion_witness :
    (envWith [] "Hi Ann {experiences}".toList).Call
      (combinedPrompt (getFormattedDate (envWith [] "Hi Ann {experiences}".toList))
        "Go developer".toList "Hi <NAME> {experiences}".toList) 8
      = .ok "Hi Ann {experiences}".toList :=
  (fill_template_returns_completion (envWith [] "Hi Ann {experiences}".toList)
    "Hi <NAME> {experiences}".toList "Go developer".toList _ "Hi Ann {experiences}".toList
    rfl).1

/-! ## The claims on the handler -/

/-- C2. When the completed template is `pre ++ "{experiences}" ++ post` and the
token occurs in `pre ++ "{experiences}"` only as its suffix, the cover letter
in the handler's 200 response is `pre ++ pars ++ post`: the first occurrence is
replaced by the paragraph block and `post`, with any later occurrence of the
token, is left as it is. -/
theorem cover_letter_replaces_first_placeholder (env : Env) (req : CoverLetterRequest)
    (ev1 ev2 : List Event) (pars pre post : GoString) (err1 err2 : Option GoString)
    (hreq : WellFormed req)
    (hsel : choose_3_pars_w_vectorstore env (sliceElems req.BodyParagraphs) req.JobDescription
      = (ev1, .returned (pars, err1)))
    (hfill : fill_template env req.Template req.JobDescription
      = (ev2, (pre ++ experiencesToken ++ post, err2)))
    (hfirst : ∀ k, k < pre.length → ¬ experiencesToken <+: (pre ++ experiencesToken).drop k) :
    ∃ evs, handleGenerateCoverLetter env (.ok req) =
      (evs ++ [Event.JSON 200 [("cover_letter".toList, pre ++ pars ++ post)]],
        .returned ()) := by
  have hidx : Index (pre ++ experiencesToken ++ post) experiencesToken = some pre.length := by
    apply Index_eq_some_of_first
    · rw [List.append_assoc, List.drop_left]
      exact List.prefix_append _ _
    · intro j hj hp
      apply hfirst j hj
      have hle : j ≤ (pre ++ experiencesToken).length := by
        rw [List.length_append]
        omega
      rw [List.drop_append_of_le_length hle] at hp
      refine List.prefix_of_prefix_length_le hp (List.prefix_append _ _) ?_
      rw [List.length_drop, List.length_append]
      omega
  have hcl : (pre ++ experiencesToken ++ post).take pre.length ++ pars
      ++ (pre ++ experiencesToken ++ post).drop (pre.length + experiencesToken.length)
      = pre ++ pars ++ post := by
    rw [List.append_assoc pre experiencesToken post, List.take_left,
      ← List.append_assoc pre experiencesToken post, ← List.length_append, List.drop_left]
  rw [handle_assembles env req hreq ev1 ev2 pars _ err1 err2 hsel hfill, hidx]
  dsimp only
  rw [hcl]
  exact ⟨_, rfl⟩

/-- C2 at a concrete completed template with two occurrences of the token. -/
theorem cover_letter_replaces_first_placeholder_witness :
    ∃ evs, handleGenerateCoverLetter (envAnswering "Hi Ann, {experiences} Bye {experiences}")
        (.ok req0) =
      (evs ++ [Event.JSON 200 [("cover_letter".toList,
        "Hi Ann, ".toList ++ "p1\n\np2\n\np3".toList ++ " Bye {experiences}".toList)]],
        .returned ()) :=
  cover_letter_replaces_first_placeholder
    (envAnswering "Hi Ann, {experiences} Bye {experiences}") req0 _ _
    "p1\n\np2\n\np3".toList "Hi Ann, ".toList " Bye {experiences}".toList none none
    ⟨by decide, ⟨by decide, by decide⟩, by decide,
      ⟨"Hi <NAME>, ".toList, " Bye".toList, by decide⟩⟩
    rfl rfl (by decide)

/-- C3. On a valid request for which the model call fails, the handler emits
the 500 response of the completer and then, in the same run, a 200 response
that carries a `cover_letter` document. -/
theorem failure_is_followed_by_cover_letter :
    handleGenerateCoverLetter envModelFails (.ok req0) =
      ([ Event.chromaNew [] [] "ns".toList,
         Event.AddDocuments (documentsOf pars3),
         Event.SimilaritySearch
           "Which of these paragraphs is most related to Data Engineering?".toList 3
           [VSOption.WithScoreThreshold 8],
         Event.openaiNew "gpt-4o-mini".toList,
         Event.Call (combinedPrompt "May 1, 2025".toList req0.JobDescription req0.Template) 8,
         Event.JSON 500 [("error".toList, "Failure filling out template".toList)],
         Event.JSON 200 [("cover_letter".toList, [])] ],
        .returned ()) := by
  rfl

/-- C8. A parsed request that meets the four conditions makes the handler
proceed to paragraph selection: its run starts with the run of the selector on
the request's paragraphs and job description, whose first event is the
construction of the store.  A parsed request that misses one of them gets a
single response, with status 400, and no call to the selector or the completer
is made. -/
theorem validation_gate (env : Env) (req : CoverLetterRequest) :
    (WellFormed req →
      (∃ more, (handleGenerateCoverLetter env (.ok req)).1 =
        (choose_3_pars_w_vectorstore env (sliceElems req.BodyParagraphs) req.JobDescription).1
          ++ more) ∧
      (∃ rest, (handleGenerateCoverLetter env (.ok req)).1 =
        Event.chromaNew (env.Getenv "CHROMA_URL".toList) (env.Getenv "OPENAI_API_KEY".toList)
          env.uuidNew :: rest)) ∧
    (¬ WellFormed req →
      ∃ msg, handleGenerateCoverLetter env (.ok req) =
        ([Event.JSON 400 [("error".toList, msg)]], .returned ())) := by
  constructor
  · intro hreq
    have hpre : ∃ more, (handleGenerateCoverLetter env (.ok req)).1 =
        (choose_3_pars_w_vectorstore env (sliceElems req.BodyParagraphs) req.JobDescription).1
          ++ more := by
      rw [handle_of_wellFormed env req hreq]
      rcases hc : choose_3_pars_w_vectorstore env (sliceElems req.BodyParagraphs)
          req.JobDescription with ⟨ev1, o⟩
      cases o with
      | fatal msg => exact ⟨[], (List.append_nil ev1).symm⟩
      | panicked msg => exact ⟨[], (List.append_nil ev1).symm⟩
      | returned v =>
        obtain ⟨pars, err1⟩ := v
        rcases hf : fill_template env req.Template req.JobDescription with ⟨ev2, c, err2⟩
        dsimp only
        cases Replace c experiencesToken pars 1 with
        | none =>
          simp only [List.append_assoc]
          exact ⟨_, rfl⟩
        | some cl =>
          simp only [List.append_assoc]
          exact ⟨_, rfl⟩
    refine ⟨hpre, ?_⟩
    obtain ⟨more, hmore⟩ := hpre
    obtain ⟨rest, hrest⟩ := choose_first_event env (sliceElems req.BodyParagraphs)
      req.JobDescription
    exact ⟨rest ++ more, by rw [hmore, hrest]; rfl⟩
  · intro hreq
    unfold handleGenerateCoverLetter
    dsimp only
    split
    · exact ⟨_, rfl⟩
    · rename_i h1
      split
      · exact ⟨_, rfl⟩
      · rename_i h2
        split
        · exact ⟨_, rfl⟩
        · rename_i h3
          exfalso
          apply hreq
          have hc : Contains req.Template experiencesToken = true := by
            simpa using h3
          refine ⟨fun h => h1 (Or.inl h), ⟨fun h => h1 (Or.inr (Or.inl h)), by omega⟩,
            fun h => h1 (Or.inr (Or.inr h)), (Contains_iff_isInfix _ _).1 hc⟩

/-- C9, counterexample. The model answers with a text without the placeholder:
the handler emits no error and responds with status 200, the cover letter
being the model's text unchanged. -/
theorem missing_placeholder_is_not_an_error :
    Contains "Dear team".toList experiencesToken = false ∧
    handleGenerateCoverLetter (envAnswering "Dear team") (.ok req0) =
      ([ Event.chromaNew [] [] "ns".toList,
         Event.AddDocuments (documentsOf pars3),
         Event.SimilaritySearch
           "Which of these paragraphs is most related to Data Engineering?".toList 3
           [VSOption.WithScoreThreshold 8],
         Event.openaiNew "gpt-4o-mini".toList,
         Event.Call (combinedPrompt "May 1, 2025".toList req0.JobDescription req0.Template) 8,
         Event.JSON 200 [("cover_letter".toList, "Dear team".toList)] ],
        .returned ()) :=
  ⟨by decide, rfl⟩

/-- C9, amended. When the selector and the completer both return without an
error and the completed template does not contain the placeholder, the handler
substitutes nothing and responds with status 200, the cover letter being the
completed template unchanged; no error response is emitted. -/
theorem missing_placeholder_returns_template (env : Env) (req : CoverLetterRequest)
    (ev1 ev2 : List Event) (pars c : GoString)
    (hreq : WellFormed req)
    (hsel : choose_3_pars_w_vectorstore env (sliceElems req.BodyParagraphs) req.JobDescription
      = (ev1, .returned (pars, none)))
    (hfill : fill_template env req.Template req.JobDescription = (ev2, (c, none)))
    (hmissing : Contains c experiencesToken = false) :
    handleGenerateCoverLetter env (.ok req) =
      (ev1 ++ ev2 ++ [Event.JSON 200 [("cover_letter".toList, c)]], .returned ()) := by
  have hidx : Index c experiencesToken = none := by
    unfold Contains at hmissing
    cases hi : Index c experiencesToken with
    | none => rfl
    | some k => simp [hi] at hmissing
  rw [handle_assembles env req hreq ev1 ev2 pars c none none hsel hfill, hidx]
  simp

/-- C9, amended, at a concrete model answer without the placeholder. -/
theorem missing_placeholder_returns_template_witness :
    ∃ evs, handleGenerateCoverLetter (envAnswering "Dear team") (.ok req0) =
      (evs ++ [Event.JSON 200 [("cover_letter".toList, "Dear team".toList)]],
        .returned ()) :=
  ⟨_, missing_placeholder_returns_template (envAnswering "Dear team") req0 _ _
    "p1\n\np2\n\np3".toList "Dear team".toList
    ⟨by decide, ⟨by decide, by decide⟩, by decide,
      ⟨"Hi <NAME>, ".toList, " Bye".toList, by decide⟩⟩
    rfl rfl (by decide)⟩

end CoverMate
